import Mathlib

set_option maxHeartbeats 1000000
set_option linter.unusedVariables false

/-!
Shallow embedding of `route53_backup.py`, a backup tool that copies AWS
Route 53 hosted zones and their records into an S3 bucket.  External
collaborators (boto3 clients, the `csv`/`json`/`hashlib` modules, the
process environment) are modelled as explicit parameters; dictionary
values returned by the AWS APIs are modelled by the inductive type
`PVal`, whose subscript operation mirrors the dynamic semantics of
Python subscripting (`KeyError` for a missing key on a dict,
`TypeError` for subscripting a non-dict value).
-/

/-- Python-like dynamic values as they appear in API responses. -/
inductive PVal where
  | noneV : PVal
  | boolV : Bool → PVal
  | intV : Int → PVal
  | str : String → PVal
  | list : List PVal → PVal
  | dict : List (String × PVal) → PVal

/-- Python exception classes that the embedded code can raise. -/
inductive PyErr where
  | keyError : PyErr
  | typeError : PyErr
  | exception : String → PyErr
  | clientError : String → PyErr
  deriving DecidableEq

@[simp]
lemma except_bind_ok {α β ε : Type} (a : α) (f : α → Except ε β) :
    (Except.ok a >>= f : Except ε β) = f a := rfl

@[simp]
lemma except_bind_error {α β ε : Type} (e : ε) (f : α → Except ε β) :
    (Except.error e >>= f : Except ε β) = .error e := rfl

@[simp]
lemma except_pure_eq_ok {α ε : Type} (a : α) :
    (pure a : Except ε α) = .ok a := rfl

@[simp]
lemma except_map_ok {α β ε : Type} (g : α → β) (a : α) :
    (Except.ok a : Except ε α).map g = .ok (g a) := rfl

@[simp]
lemma except_map_error {α β ε : Type} (g : α → β) (e : ε) :
    (Except.error e : Except ε α).map g = .error e := rfl

/-- First-match lookup in a dict represented as an association list. -/
def py_lookup : List (String × PVal) → String → Option PVal
  | [], _ => none
  | (k, v) :: rest, key => if k == key then some v else py_lookup rest key

/-- Subscript access `record[key]`: KeyError when a dict lacks the key,
TypeError when the subscripted value is not a dict. -/
def py_getitem (v : PVal) (key : String) : Except PyErr PVal :=
  match v with
  | .dict es =>
    match py_lookup es key with
    | some x => .ok x
    | none => .error .keyError
  | _ => .error .typeError

/-- Coercion to a string where Python string operations require one
(string concatenation and str.join raise TypeError otherwise). -/
def py_str_of : PVal → Except PyErr String
  | .str s => .ok s
  | _ => .error .typeError

/-- Truthiness of a Python value, as used by filter(None, ...). -/
def py_truthy : PVal → Bool
  | .noneV => false
  | .boolV b => b
  | .intV n => n != 0
  | .str s => !s.isEmpty
  | .list xs => !xs.isEmpty
  | .dict es => !es.isEmpty

/-- Embeds `try_record` (source lines 167-176): return `record[test]`,
with both KeyError and TypeError degraded to the empty string. -/
def try_record (test : String) (record : PVal) : PVal :=
  match py_getitem record test with
  | .ok v => v
  | .error _ => .str ""

/-- Embeds `get_record_value` (source lines 147-164).  The try block
builds the single ALIAS value; only KeyError is caught, in which case
the plain `ResourceRecords` values are collected.  A KeyError raised
while reading `ResourceRecords` inside the except block propagates. -/
def get_record_value (record : PVal) : Except PyErr (List PVal) :=
  match (do
      let a1 ← py_getitem record "AliasTarget"
      let zid ← py_getitem a1 "HostedZoneId"
      let a2 ← py_getitem record "AliasTarget"
      let dns ← py_getitem a2 "DNSName"
      let zs ← py_str_of zid
      let ds ← py_str_of dns
      Except.ok [PVal.str ("ALIAS" ++ ":" ++ zs ++ ":" ++ ds)] :
    Except PyErr (List PVal)) with
  | .ok v => .ok v
  | .error .keyError =>
    match py_getitem record "ResourceRecords" with
    | .ok (.list rrs) => rrs.mapM (fun rr => py_getitem rr "Value")
    | .ok _ => .error .typeError
    | .error e => .error e
  | .error e => .error e

/-- The fixed CSV header row written by `write_zone_to_csv`. -/
def csv_header : List PVal :=
  [.str "NAME", .str "TYPE", .str "VALUE", .str "TTL", .str "REGION",
   .str "WEIGHT", .str "SETID", .str "FAILOVER", .str "EVALUATE_HEALTH"]

/-- The CSV rows contributed by one record (source lines 200-216): a
nine-column row is built, then one copy per value is emitted with only
the VALUE column (index 2) replaced. -/
def record_csv_rows (record : PVal) : Except PyErr (List (List PVal)) := do
  let name ← py_getitem record "Name"
  let ty ← py_getitem record "Type"
  let row : List PVal :=
    [name, ty, .str "",
     try_record "TTL" record,
     try_record "Region" record,
     try_record "Weight" record,
     try_record "SetIdentifier" record,
     try_record "Failover" record,
     try_record "EvaluateTargetHealth" (try_record "AliasTarget" record)]
  let vals ← get_record_value record
  pure (vals.map (fun v => row.set 2 v))

/-- Embeds `write_zone_to_csv` (source lines 179-217): returns the
`/tmp` file name and the written rows (header first).  Writing the
file name "/tmp/" + zone["Name"] + "csv" requires the Name to be a
string. -/
def write_zone_to_csv (zone : PVal) (zone_records : List PVal) :
    Except PyErr (String × List (List PVal)) := do
  let nameV ← py_getitem zone "Name"
  let name ← py_str_of nameV
  let rowss ← zone_records.mapM record_csv_rows
  pure ("/tmp/" ++ name ++ "csv", csv_header :: rowss.flatten)

/-- One page of `list_hosted_zones_by_name` output. -/
structure ZonesResponse where
  HostedZones : List PVal
  IsTruncated : Bool
  NextDNSName : String
  NextHostedZoneId : String

/-- One page of `list_resource_record_sets` output. -/
structure RecordsResponse where
  ResourceRecordSets : List PVal
  IsTruncated : Bool
  NextRecordName : String
  NextRecordType : String

/-- Embeds `get_route53_hosted_zones` (source lines 111-125).  The
Route 53 service is modelled by the list of responses it returns, one
per issued request, consumed in order.  The result pairs the requests
issued (each carrying the cursor passed as `next_zone`) with the
accumulated items; `none` marks the model-only situation in which the
service reported truncation but has no further response. -/
def get_route53_hosted_zones :
    List ZonesResponse → Option (String × String) →
    Option (List (Option (String × String)) × List PVal)
  | [], _ => none
  | resp :: rest, next_zone =>
    if resp.IsTruncated then
      match get_route53_hosted_zones rest
          (some (resp.NextDNSName, resp.NextHostedZoneId)) with
      | none => none
      | some (reqs, items) =>
        some (next_zone :: reqs, resp.HostedZones ++ items)
    else
      some ([next_zone], resp.HostedZones)

/-- Embeds `get_route53_zone_records` (source lines 128-144), with the
same response-list service model; every issued request carries the
zone id together with the optional (StartRecordName, StartRecordType)
cursor. -/
def get_route53_zone_records (zone_id : String) :
    List RecordsResponse → Option (String × String) →
    Option (List (String × Option (String × String)) × List PVal)
  | [], _ => none
  | resp :: rest, next_record =>
    if resp.IsTruncated then
      match get_route53_zone_records zone_id rest
          (some (resp.NextRecordName, resp.NextRecordType)) with
      | none => none
      | some (reqs, items) =>
        some ((zone_id, next_record) :: reqs, resp.ResourceRecordSets ++ items)
    else
      some ([(zone_id, next_record)], resp.ResourceRecordSets)

example : try_record "TTL" (.dict [("TTL", .intV 300)]) = .intV 300 := rfl
example : try_record "TTL" (.str "") = .str "" := rfl
example :
    get_record_value (.dict [("AliasTarget",
      .dict [("HostedZoneId", .str "Z2"), ("DNSName", .str "d.example.com.")])]) =
      .ok [.str "ALIAS:Z2:d.example.com."] := rfl
example :
    get_record_value (.dict [("ResourceRecords",
      .list [.dict [("Value", .str "1.2.3.4")], .dict [("Value", .str "5.6.7.8")]])]) =
      .ok [.str "1.2.3.4", .str "5.6.7.8"] := rfl
example : get_record_value (.dict [("Name", .str "x")]) = .error .keyError := rfl

/-- Configuration read from the process environment at module load
(source lines 16-19). -/
structure Config where
  s3_bucket_name : String
  s3_bucket_region : String
  s3_bucket_folder : Option String
  s3_bucket_versioned : Bool

/-- Python int(x, 0): a missing value (None) raises TypeError before
anything else runs.  The numeral parsing of the external builtin is
modelled for plain decimal literals. -/
def py_int_base0 : Option String → Except PyErr Int
  | none => .error .typeError
  | some s =>
    match s.toInt? with
    | some n => .ok n
    | none => .error (.exception "invalid literal for int with base 0")

/-- Embeds the module-level configuration loading (source lines 16-24).
Line 19 computes s3_bucket_versioned before the line 21 check of the
name and region, so a missing S3_BUCKET_VERSIONED raises first. -/
def load_config (environ : String → Option String) : Except PyErr Config :=
  let s3_bucket_name := environ "S3_BUCKET_NAME"
  let s3_bucket_region := environ "S3_BUCKET_REGION"
  let s3_bucket_folder := environ "S3_BUCKET_FOLDER"
  match py_int_base0 (environ "S3_BUCKET_VERSIONED") with
  | .error e => .error e
  | .ok n =>
    let s3_bucket_versioned := n == 1
    match s3_bucket_name, s3_bucket_region with
    | some nm, some rg =>
      if nm == "" || rg == "" then
        .error (.exception
          "S3_BUCKET_NAME and S3_BUCKET_REGION environment variables must be set.")
      else
        .ok ⟨nm, rg, s3_bucket_folder, s3_bucket_versioned⟩
    | _, _ =>
      .error (.exception
        "S3_BUCKET_NAME and S3_BUCKET_REGION environment variables must be set.")

/-- Behaviour of the external AWS services during one run: the S3
control-plane answers, the sequences of Route 53 listing responses,
and the external pure collaborators (md5, csv and json rendering, the
timestamp produced by time.strftime at run start). -/
structure AwsEnv where
  headBucket : Option String
  bucketVersioningStatus : Option String
  createLocation : Option String
  zoneResponses : List ZonesResponse
  recordResponses : String → List RecordsResponse
  headObjectErr : String → Option String
  md5_hex : String → String
  csvRender : List (List PVal) → String
  jsonRender : List PVal → String
  time_stamp : String

/-- Observable state of a run: the object-store contents (latest entry
first) plus a log of every externally visible effect. -/
structure RunState where
  objects : List (String × String)
  zoneListCalls : Nat
  recordListCalls : Nat
  headObjectCalls : List String
  putObjectCalls : List String
  uploadKeys : List String
  createBucketCalls : Nat
  publicAccessBlockCalls : Nat
  putBucketVersioningCalls : Nat
  tmpFiles : List String

/-- The state at the start of a run: empty store, no calls issued. -/
def RunState.init : RunState := ⟨[], 0, 0, [], [], [], 0, 0, 0, []⟩

/-- The filter(None, parts) and "/".join pattern on optional strings
(source lines 89 and 234). -/
def py_filter_join (parts : List (Option String)) : String :=
  String.intercalate "/" ((parts.filterMap id).filter (fun s => !s.isEmpty))

/-- Python sequence slice x[:-1], defined on the value shapes that can
reach it in this program. -/
def py_slice_drop_last : PVal → Except PyErr PVal
  | .str s => .ok (.str (s.dropRight 1))
  | .list xs => .ok (.list xs.dropLast)
  | _ => .error .typeError

/-- dict.get(key, default); calling .get on a non-dict raises
(AttributeError in Python, folded into TypeError here). -/
def py_dict_get (v : PVal) (key : String) (dflt : PVal) : Except PyErr PVal :=
  match v with
  | .dict es => .ok ((py_lookup es key).getD dflt)
  | _ => .error .typeError

/-- The "/".join(filter(None, parts)) pattern over dynamic values,
which raises TypeError when a kept part is not a string. -/
def py_join_slash (parts : List PVal) : Except PyErr String :=
  (parts.filter py_truthy |>.mapM py_str_of).map (String.intercalate "/")

/-- An optional environment string as the Python value it denotes. -/
def opt_str_pv : Option String → PVal
  | none => .noneV
  | some s => .str s

/-- Embeds gen_folder inside lambda_handler (source lines 233-236):
"/".join(filter(None, [s3_bucket_folder, time_stamp, zone.get("Name", list())[:-1]])). -/
def gen_folder (s3_bucket_folder : Option String) (time_stamp : String)
    (zone : PVal) : Except PyErr String := do
  let nm ← py_dict_get zone "Name" (.list [])
  let sliced ← py_slice_drop_last nm
  py_join_slash [opt_str_pv s3_bucket_folder, .str time_stamp, sliced]

/-- First-match lookup among the stored objects. -/
def lookup_str : List (String × String) → String → Option String
  | [], _ => none
  | (k, v) :: rest, key => if k == key then some v else lookup_str rest key

/-- head_object as observed through the store model: an injected
service failure if configured for the key, otherwise the ETag of the
stored content (S3 reports the quoted md5 of a single-part object), or
a 404 client error when the key is absent. -/
def head_object (env : AwsEnv) (st : RunState) (key : String) :
    Except String String :=
  match env.headObjectErr key with
  | some code => .error code
  | none =>
    match lookup_str st.objects key with
    | some content => .ok ("\"" ++ env.md5_hex content ++ "\"")
    | none => .error "404"

/-- upload_file: an unconditional putObject recorded in the store and
the call log. -/
def s3_upload_file (file_content key : String) (st : RunState) : RunState :=
  { st with
      objects := (key, file_content) :: st.objects,
      putObjectCalls := st.putObjectCalls ++ [key] }

/-- Embeds `upload_to_s3` (source lines 86-108).  The object key is
"/".join(filter(None, [folder, key])).  When the bucket is configured
as versioned the object is first probed with head_object: a 404 means
the object is absent and the upload proceeds, any other client error
is re-raised, and an existing object is re-uploaded only when the
quoted md5 of the local content differs from the stored ETag. -/
def upload_to_s3 (cfg : Config) (env : AwsEnv) (file_content : String)
    (bucket_name key0 : String) (folder : Option String) (st : RunState) :
    Except PyErr Unit × RunState :=
  let key := py_filter_join [folder, some key0]
  let st := { st with uploadKeys := st.uploadKeys ++ [key] }
  if cfg.s3_bucket_versioned then
    let st := { st with headObjectCalls := st.headObjectCalls ++ [key] }
    match head_object env st key with
    | .error code =>
      if code == "404" then (.ok (), s3_upload_file file_content key st)
      else (.error (.clientError code), st)
    | .ok etag =>
      if ("\"" ++ env.md5_hex file_content ++ "\"") == etag then (.ok (), st)
      else (.ok (), s3_upload_file file_content key st)
  else
    (.ok (), s3_upload_file file_content key st)

/-- Embeds `create_s3_bucket` (source lines 36-83).  The boolean result
is the truthiness of the returned value as tested by lambda_handler
(False corresponds to the `return None` path).  The Exception raised
on a versioning mismatch is not a ClientError, so the surrounding
except clause does not catch it and it propagates. -/
def create_s3_bucket (cfg : Config) (env : AwsEnv)
    (bucket_name bucket_region : String) (st : RunState) :
    Except PyErr Bool × RunState :=
  match env.headBucket with
  | none =>
    let versioning := env.bucketVersioningStatus == some "Enabled"
    if versioning != cfg.s3_bucket_versioned then
      (.error (.exception "bucket versioning does not match the configured mode"), st)
    else
      (.ok true, st)
  | some code =>
    if code != "404" then
      (.ok false, st)
    else
      let st := { st with createBucketCalls := st.createBucketCalls + 1 }
      match env.createLocation with
      | some _ =>
        let st := { st with publicAccessBlockCalls := st.publicAccessBlockCalls + 1 }
        let st :=
          if cfg.s3_bucket_versioned then
            { st with putBucketVersioningCalls := st.putBucketVersioningCalls + 1 }
          else st
        (.ok true, st)
      | none => (.ok true, st)

/-- Embeds `write_zone_to_json` (source lines 220-226): the /tmp file
name and the json.dump rendering of the raw record list. -/
def write_zone_to_json (env : AwsEnv) (zone : PVal) (zone_records : List PVal) :
    Except PyErr (String × String) := do
  let nameV ← py_getitem zone "Name"
  let name ← py_str_of nameV
  pure ("/tmp/" ++ name ++ "json", env.jsonRender zone_records)

/-- The per-zone body of the lambda_handler loop (source lines
251-265): compute the zone folder, list the records, write and upload
the csv artifact, then write and upload the json artifact. -/
def process_zone (cfg : Config) (env : AwsEnv) (time_stamp : String)
    (zone : PVal) (st : RunState) : Except PyErr Unit × RunState :=
  match gen_folder cfg.s3_bucket_folder time_stamp zone with
  | .error e => (.error e, st)
  | .ok zone_folder =>
    match py_getitem zone "Id" with
    | .error e => (.error e, st)
    | .ok (.str zid) =>
      match get_route53_zone_records zid (env.recordResponses zid) none with
      | none => (.error (.exception "record listing model out of responses"), st)
      | some (reqs, zone_records) =>
        let st := { st with recordListCalls := st.recordListCalls + reqs.length }
        match write_zone_to_csv zone zone_records with
        | .error e => (.error e, st)
        | .ok (csvFile, csvDoc) =>
          let st := { st with tmpFiles := st.tmpFiles ++ [csvFile] }
          match py_getitem zone "Name" with
          | .error e => (.error e, st)
          | .ok nameV =>
            match py_str_of nameV with
            | .error e => (.error e, st)
            | .ok name =>
              match upload_to_s3 cfg env (env.csvRender csvDoc)
                  cfg.s3_bucket_name (name ++ "csv") (some zone_folder) st with
              | (.error e, st) => (.error e, st)
              | (.ok _, st) =>
                match write_zone_to_json env zone zone_records with
                | .error e => (.error e, st)
                | .ok (jsonFile, jsonContent) =>
                  let st := { st with tmpFiles := st.tmpFiles ++ [jsonFile] }
                  match upload_to_s3 cfg env jsonContent
                      cfg.s3_bucket_name (name ++ "json") (some zone_folder) st with
                  | (.error e, st) => (.error e, st)
                  | (.ok _, st) => (.ok (), st)
    | .ok _ =>
      (.error .typeError, st)

/-- The zone loop of lambda_handler: zones are processed in order and
the first failure halts the remaining zones. -/
def process_zones (cfg : Config) (env : AwsEnv) (time_stamp : String) :
    List PVal → RunState → Except PyErr Bool × RunState
  | [], st => (.ok true, st)
  | z :: zs, st =>
    match process_zone cfg env time_stamp z st with
    | (.error e, st) => (.error e, st)
    | (.ok _, st) => process_zones cfg env time_stamp zs st

/-- Embeds `lambda_handler` (source lines 232-266): the timestamp is
read once at run start; the bucket is provisioned (a falsy result
returns False); the zones are listed; the backing-up banner evaluates
gen_folder on an empty dict; then every zone is processed in order and
True is returned. -/
def lambda_handler (cfg : Config) (env : AwsEnv) : Except PyErr Bool × RunState :=
  let time_stamp := env.time_stamp
  match create_s3_bucket cfg env cfg.s3_bucket_name cfg.s3_bucket_region RunState.init with
  | (.error e, st) => (.error e, st)
  | (.ok ok, st) =>
    if !ok then (.ok false, st)
    else
      match get_route53_hosted_zones env.zoneResponses none with
      | none => (.error (.exception "zone listing model out of responses"), st)
      | some (reqs, hosted_zones) =>
        let st := { st with zoneListCalls := st.zoneListCalls + reqs.length }
        match gen_folder cfg.s3_bucket_folder time_stamp (.dict []) with
        | .error e => (.error e, st)
        | .ok _ => process_zones cfg env time_stamp hosted_zones st

/-- Recognizer for dict values, used to state the absent-holder case. -/
def is_dict : PVal → Bool
  | .dict _ => true
  | _ => false

/-- C9: for every record and optional field name, try_record returns
the empty string when the field is missing from the record dict, when
the holding value is not a dict at all, and in particular for the
health-evaluation flag when the alias target is absent; no error is
raised in any of these cases (try_record is total). -/
theorem claim_C9_optional_fields :
    (∀ (field : String) (es : List (String × PVal)),
        py_lookup es field = none → try_record field (.dict es) = .str "")
    ∧ (∀ (field : String) (v : PVal),
        is_dict v = false → try_record field v = .str "")
    ∧ (∀ es : List (String × PVal),
        py_lookup es "AliasTarget" = none →
        try_record "EvaluateTargetHealth"
          (try_record "AliasTarget" (.dict es)) = .str "") := by
  refine ⟨?_, ?_, ?_⟩
  · intro field es h
    simp [try_record, py_getitem, h]
  · intro field v h
    cases v <;> simp_all [try_record, py_getitem, is_dict]
  · intro es h
    simp [try_record, py_getitem, h]

/-- Witness for C9 at a concrete record lacking TTL and AliasTarget. -/
theorem claim_C9_witness :
    py_lookup [("Name", PVal.str "w.example.com.")] "TTL" = none
    ∧ try_record "TTL" (.dict [("Name", PVal.str "w.example.com.")]) = .str ""
    ∧ is_dict (.str "") = false
    ∧ try_record "EvaluateTargetHealth" (.str "") = .str ""
    ∧ try_record "EvaluateTargetHealth"
        (try_record "AliasTarget" (.dict [("Name", PVal.str "w.example.com.")])) = .str "" :=
  ⟨rfl,
   claim_C9_optional_fields.1 "TTL" _ rfl,
   rfl,
   claim_C9_optional_fields.2.1 "EvaluateTargetHealth" _ rfl,
   claim_C9_optional_fields.2.2 _ rfl⟩

/-- C3 counterexample: a record carrying neither an alias target nor
plain resource records makes get_record_value raise KeyError (from the
ResourceRecords subscript inside the except block); it does not return
an empty value list as the claim states. -/
theorem claim_C3_counterexample :
    get_record_value
        (.dict [("Name", PVal.str "broken.example.com."), ("Type", PVal.str "A")])
      = .error .keyError
    ∧ ∀ vals : List PVal,
        get_record_value
            (.dict [("Name", PVal.str "broken.example.com."), ("Type", PVal.str "A")])
          ≠ .ok vals := by
  refine ⟨rfl, ?_⟩
  intro vals h
  rw [show get_record_value
        (.dict [("Name", PVal.str "broken.example.com."), ("Type", PVal.str "A")])
      = .error .keyError from rfl] at h
  exact Except.noConfusion h

/-- C3 amended: for every record dict with neither an AliasTarget key
nor a ResourceRecords key, get_record_value raises KeyError, so the
whole run fails on such a record instead of emitting zero rows. -/
theorem claim_C3_amended :
    ∀ es : List (String × PVal),
      py_lookup es "AliasTarget" = none →
      py_lookup es "ResourceRecords" = none →
      get_record_value (.dict es) = .error .keyError := by
  intro es h1 h2
  simp [get_record_value, py_getitem, h1, h2]

/-- Witness for the amended C3 at a concrete record. -/
theorem claim_C3_witness :
    py_lookup [("Type", PVal.str "A")] "AliasTarget" = none
    ∧ py_lookup [("Type", PVal.str "A")] "ResourceRecords" = none
    ∧ get_record_value (.dict [("Type", PVal.str "A")]) = .error .keyError :=
  ⟨rfl, rfl, claim_C3_amended _ rfl rfl⟩

/-- Collecting the plain values out of canonical ResourceRecords
elements succeeds and preserves order. -/
lemma mapM_getitem_value (vs : List String) :
    (vs.map (fun s => PVal.dict [("Value", PVal.str s)])).mapM
      (fun rr => py_getitem rr "Value") = .ok (vs.map PVal.str) := by
  induction vs with
  | nil => rfl
  | cons v vs ih =>
    rw [List.map_cons, List.mapM_cons, ih]
    rfl

/-- C4: a record with an alias target encodes to the single value
ALIAS:<hostedZoneId>:<dnsName>; a record with plain values [a,b,c]
encodes to exactly [a,b,c] in server order. -/
theorem claim_C4_record_values :
    (∀ (es ats : List (String × PVal)) (z d : String),
        py_lookup es "AliasTarget" = some (.dict ats) →
        py_lookup ats "HostedZoneId" = some (.str z) →
        py_lookup ats "DNSName" = some (.str d) →
        get_record_value (.dict es) = .ok [.str ("ALIAS" ++ ":" ++ z ++ ":" ++ d)])
    ∧ (∀ (es : List (String × PVal)) (vs : List String),
        py_lookup es "AliasTarget" = none →
        py_lookup es "ResourceRecords" =
          some (.list (vs.map (fun s => .dict [("Value", .str s)]))) →
        get_record_value (.dict es) = .ok (vs.map PVal.str)) := by
  constructor
  · intro es ats z d h1 h2 h3
    simp [get_record_value, py_getitem, h1, h2, h3, py_str_of]
  · intro es vs h1 h2
    simp [get_record_value, py_getitem, h1, h2]
    exact mapM_getitem_value vs

/-- Witness for C4: a concrete alias record and a concrete two-value
MX record. -/
theorem claim_C4_witness :
    get_record_value (.dict [("AliasTarget",
        .dict [("HostedZoneId", PVal.str "Z35SXDOTRQ7X7K"),
               ("DNSName", PVal.str "elb.example.com.")])])
      = .ok [.str ("ALIAS" ++ ":" ++ "Z35SXDOTRQ7X7K" ++ ":" ++ "elb.example.com.")]
    ∧ get_record_value (.dict [("ResourceRecords",
        .list [.dict [("Value", PVal.str "10 mail1.example.com.")],
               .dict [("Value", PVal.str "20 mail2.example.com.")]])])
      = .ok (["10 mail1.example.com.", "20 mail2.example.com."].map PVal.str) :=
  ⟨claim_C4_record_values.1 _ _ _ _ rfl rfl rfl,
   claim_C4_record_values.2 _ _ rfl rfl⟩

/-- C10: when S3_BUCKET_VERSIONED is absent from the environment, the
module-level configuration loading raises TypeError (int(None, 0)),
before any client is created or any provisioning, listing or upload
can run, and regardless of the other variables; in particular no
configuration with a defaulted-false versioning mode is produced. -/
theorem claim_C10_versioned_env_required :
    ∀ environ : String → Option String,
      environ "S3_BUCKET_VERSIONED" = none →
      load_config environ = .error .typeError
      ∧ ∀ cfg : Config, load_config environ ≠ .ok cfg := by
  intro environ h
  have hload : load_config environ = .error .typeError := by
    simp [load_config, py_int_base0, h]
  exact ⟨hload, fun cfg hc => by rw [hload] at hc; exact Except.noConfusion hc⟩

/-- Witness for C10: name and region are set, the versioned flag is
absent, and loading fails with TypeError. -/
theorem claim_C10_witness :
    (fun k => if k == "S3_BUCKET_NAME" then some "route53-backup-bucket"
              else if k == "S3_BUCKET_REGION" then some "us-east-1"
              else (none : Option String)) "S3_BUCKET_VERSIONED" = none
    ∧ load_config
        (fun k => if k == "S3_BUCKET_NAME" then some "route53-backup-bucket"
                  else if k == "S3_BUCKET_REGION" then some "us-east-1"
                  else none) = .error .typeError :=
  ⟨rfl, (claim_C10_versioned_env_required _ rfl).1⟩

/-- Wrapping two distinct strings in double quotes keeps them
distinct, so distinct md5 digests give distinct ETags. -/
lemma quote_beq_false {a b : String} (h : a ≠ b) :
    (("\"" ++ a ++ "\"" : String) == ("\"" ++ b ++ "\"")) = false := by
  simp only [beq_eq_false_iff_ne, ne_eq]
  intro hq
  apply h
  have hd := congrArg String.data hq
  simp [String.data_append] at hd
  exact String.ext hd

/-- C1: against a versioned store, uploading the same bytes twice to
the same fresh key performs exactly one putObject call, the second
invocation returning after the checksum comparison without touching
the store; uploading different bytes to the same key performs two
putObject calls; against a non-versioned store every upload writes
unconditionally and issues no head_object metadata query. -/
theorem claim_C1_upload_idempotence (cfg : Config) (env : AwsEnv)
    (c1 c2 bucket k : String) (f : Option String) (st : RunState) :
    (cfg.s3_bucket_versioned = true →
      env.headObjectErr (py_filter_join [f, some k]) = none →
      lookup_str st.objects (py_filter_join [f, some k]) = none →
      ((upload_to_s3 cfg env c1 bucket k f st).2.putObjectCalls
          = st.putObjectCalls ++ [py_filter_join [f, some k]]
        ∧ (upload_to_s3 cfg env c1 bucket k f
            (upload_to_s3 cfg env c1 bucket k f st).2).1 = .ok ()
        ∧ (upload_to_s3 cfg env c1 bucket k f
            (upload_to_s3 cfg env c1 bucket k f st).2).2.putObjectCalls
          = st.putObjectCalls ++ [py_filter_join [f, some k]]
        ∧ (upload_to_s3 cfg env c1 bucket k f
            (upload_to_s3 cfg env c1 bucket k f st).2).2.objects
          = (upload_to_s3 cfg env c1 bucket k f st).2.objects)
      ∧ (env.md5_hex c2 ≠ env.md5_hex c1 →
        (upload_to_s3 cfg env c2 bucket k f
            (upload_to_s3 cfg env c1 bucket k f st).2).2.putObjectCalls
          = st.putObjectCalls
              ++ [py_filter_join [f, some k], py_filter_join [f, some k]]))
    ∧ (cfg.s3_bucket_versioned = false →
      (upload_to_s3 cfg env c1 bucket k f st).1 = .ok ()
      ∧ (upload_to_s3 cfg env c1 bucket k f st).2.putObjectCalls
          = st.putObjectCalls ++ [py_filter_join [f, some k]]
      ∧ (upload_to_s3 cfg env c1 bucket k f st).2.headObjectCalls
          = st.headObjectCalls) := by
  constructor
  · intro hv hhead hlook
    refine ⟨⟨?_, ?_, ?_, ?_⟩, ?_⟩
    · simp [upload_to_s3, head_object, s3_upload_file, hv, hhead, hlook]
    · simp [upload_to_s3, head_object, s3_upload_file, hv, hhead, hlook, lookup_str]
    · simp [upload_to_s3, head_object, s3_upload_file, hv, hhead, hlook, lookup_str]
    · simp [upload_to_s3, head_object, s3_upload_file, hv, hhead, hlook, lookup_str]
    · intro hmd5
      simp [upload_to_s3, head_object, s3_upload_file, hv, hhead, hlook, lookup_str,
        quote_beq_false hmd5]
  · intro hv
    simp [upload_to_s3, s3_upload_file, hv]

/-- A versioned-mode configuration used by concrete witnesses. -/
def cfgV : Config := ⟨"backup-bucket", "us-east-1", some "backups", true⟩

/-- A non-versioned configuration used by concrete witnesses. -/
def cfgU : Config := ⟨"backup-bucket", "us-east-1", some "backups", false⟩

/-- A benign environment used by concrete witnesses: the bucket exists
with versioning enabled, no service faults, identity digest. -/
def envId : AwsEnv :=
  { headBucket := none
  , bucketVersioningStatus := some "Enabled"
  , createLocation := none
  , zoneResponses := []
  , recordResponses := fun _ => []
  , headObjectErr := fun _ => none
  , md5_hex := fun s => s
  , csvRender := fun _ => ""
  , jsonRender := fun _ => ""
  , time_stamp := "2026-01-02T03:04:05Z" }

/-- Witness for C1: same bytes twice yields one putObject, different
bytes yields two, and the non-versioned path issues no head_object. -/
theorem claim_C1_witness :
    ((upload_to_s3 cfgV envId "bytes" "backup-bucket" "z.csv" (some "folder")
        (upload_to_s3 cfgV envId "bytes" "backup-bucket" "z.csv" (some "folder")
          RunState.init).2).2.putObjectCalls
      = [py_filter_join [some "folder", some "z.csv"]])
    ∧ ((upload_to_s3 cfgV envId "other" "backup-bucket" "z.csv" (some "folder")
        (upload_to_s3 cfgV envId "bytes" "backup-bucket" "z.csv" (some "folder")
          RunState.init).2).2.putObjectCalls
      = [py_filter_join [some "folder", some "z.csv"],
         py_filter_join [some "folder", some "z.csv"]])
    ∧ ((upload_to_s3 cfgU envId "bytes" "backup-bucket" "z.csv" (some "folder")
        RunState.init).2.headObjectCalls = []) := by
  have h := claim_C1_upload_idempotence cfgV envId "bytes" "other" "backup-bucket"
    "z.csv" (some "folder") RunState.init
  have h0 := claim_C1_upload_idempotence cfgU envId "bytes" "other" "backup-bucket"
    "z.csv" (some "folder") RunState.init
  refine ⟨?_, ?_, ?_⟩
  · simpa using (h.1 rfl rfl rfl).1.2.2.1
  · simpa using (h.1 rfl rfl rfl).2 (by decide)
  · simpa using (h0.2 rfl).2.2

/-- C5: when the bucket exists and its live versioning state differs
from the configured desired state, create_s3_bucket raises a plain
Exception that the except ClientError clause does not catch;
lambda_handler propagates it and the run performs zero zone listings,
record listings, serializations and uploads. -/
theorem claim_C5_versioning_mismatch (cfg : Config) (env : AwsEnv)
    (h1 : env.headBucket = none)
    (h2 : (env.bucketVersioningStatus == some "Enabled") ≠ cfg.s3_bucket_versioned) :
    (∃ msg, lambda_handler cfg env = (.error (.exception msg), RunState.init))
    ∧ (lambda_handler cfg env).2.zoneListCalls = 0
    ∧ (lambda_handler cfg env).2.recordListCalls = 0
    ∧ (lambda_handler cfg env).2.uploadKeys = []
    ∧ (lambda_handler cfg env).2.putObjectCalls = []
    ∧ (lambda_handler cfg env).2.headObjectCalls = []
    ∧ (lambda_handler cfg env).2.tmpFiles = [] := by
  have h2b : ((env.bucketVersioningStatus == some "Enabled")
      != cfg.s3_bucket_versioned) = true := by
    simpa [bne_iff_ne] using h2
  have hmain : lambda_handler cfg env =
      (.error (.exception "bucket versioning does not match the configured mode"),
       RunState.init) := by
    simp [lambda_handler, create_s3_bucket, h1, h2b]
  refine ⟨⟨_, hmain⟩, ?_, ?_, ?_, ?_, ?_, ?_⟩ <;> rw [hmain] <;> rfl

/-- Witness for C5: versioning live-enabled against a configured
non-versioned run aborts with the raised Exception and an empty trace. -/
theorem claim_C5_witness :
    (∃ msg, lambda_handler cfgU envId = (.error (.exception msg), RunState.init))
    ∧ (lambda_handler cfgU envId).2.putObjectCalls = [] :=
  ⟨(claim_C5_versioning_mismatch cfgU envId rfl (by decide)).1,
   (claim_C5_versioning_mismatch cfgU envId rfl (by decide)).2.2.2.2.1⟩

/-- An environment whose head_bucket probe fails with a non-404 client
error and whose head_object calls fail with a 500. -/
def envErr : AwsEnv :=
  { envId with headBucket := some "403", headObjectErr := fun _ => some "500" }

/-- C8 counterexample: a 403 client error while probing the bucket is
caught by the except ClientError clause, printed, and turned into a
None return, so lambda_handler returns False normally instead of
halting with a thrown failure as the claim states. -/
theorem claim_C8_counterexample :
    (lambda_handler cfgU envErr).1 = .ok false
    ∧ ∀ e : PyErr, (lambda_handler cfgU envErr).1 ≠ .error e := by
  refine ⟨rfl, ?_⟩
  intro e h
  rw [show (lambda_handler cfgU envErr).1 = .ok false from rfl] at h
  exact Except.noConfusion h

/-- C8 amended: a non-404 storage failure during an upload head_object
probe is re-raised and halts the run with no putObject performed,
while a non-404 storage failure probing the destination bucket is
caught and logged and the run halts by returning False before any
zone listing, serialization or upload. -/
theorem claim_C8_amended (cfg : Config) (env : AwsEnv) :
    (∀ (c bucket k : String) (f : Option String) (st : RunState) (code : String),
      cfg.s3_bucket_versioned = true →
      env.headObjectErr (py_filter_join [f, some k]) = some code →
      code ≠ "404" →
      upload_to_s3 cfg env c bucket k f st
        = (.error (.clientError code),
           { st with
               uploadKeys := st.uploadKeys ++ [py_filter_join [f, some k]],
               headObjectCalls := st.headObjectCalls ++ [py_filter_join [f, some k]] }))
    ∧ (∀ code : String, env.headBucket = some code → code ≠ "404" →
      lambda_handler cfg env = (.ok false, RunState.init)) := by
  constructor
  · intro c bucket k f st code hv hhead hcode
    have hb : (code == "404") = false := by simpa using hcode
    simp [upload_to_s3, head_object, hv, hhead, hb]
  · intro code hwrap hcode
    have hb : (code != "404") = true := by simpa [bne_iff_ne] using hcode
    simp [lambda_handler, create_s3_bucket, hwrap, hb]

/-- Witness for the amended C8: a 500 on head_object re-raises with no
put, and a 403 on head_bucket yields a plain False return. -/
theorem claim_C8_witness :
    upload_to_s3 cfgV envErr "bytes" "backup-bucket" "z.csv" none RunState.init
      = (.error (.clientError "500"),
         { RunState.init with
             uploadKeys := RunState.init.uploadKeys
               ++ [py_filter_join [none, some "z.csv"]],
             headObjectCalls := RunState.init.headObjectCalls
               ++ [py_filter_join [none, some "z.csv"]] })
    ∧ lambda_handler cfgV envErr = (.ok false, RunState.init) :=
  ⟨(claim_C8_amended cfgV envErr).1 "bytes" "backup-bucket" "z.csv" none
      RunState.init "500" rfl rfl (by decide),
   (claim_C8_amended cfgV envErr).2 "403" rfl (by decide)⟩

/-- Full characterization of the zones fetcher on a well-formed
response sequence: requests carry the initial cursor and then each
response cursor, and the items are the pages concatenated in order. -/
lemma zones_fetch_spec :
    ∀ (resps : List ZonesResponse) (c0 : Option (String × String)),
      (∀ r ∈ resps.dropLast, r.IsTruncated = true) →
      (∀ last, resps.getLast? = some last → last.IsTruncated = false) →
      resps ≠ [] →
      get_route53_hosted_zones resps c0 =
        some (c0 :: resps.dropLast.map
                (fun r => some (r.NextDNSName, r.NextHostedZoneId)),
              (resps.map ZonesResponse.HostedZones).flatten) := by
  intro resps
  induction resps with
  | nil => intro c0 _ _ hne; exact absurd rfl hne
  | cons r rest ih =>
    intro c0 htr hlast hne
    cases rest with
    | nil =>
      have h := hlast r (by simp)
      simp [get_route53_hosted_zones, h]
    | cons r2 rest2 =>
      have hr : r.IsTruncated = true := htr r (by simp)
      have hrec := ih (some (r.NextDNSName, r.NextHostedZoneId))
        (fun x hx => htr x (by simpa using List.mem_cons_of_mem r hx))
        (fun l hl => hlast l (by simpa using hl))
        (by simp)
      rw [show get_route53_hosted_zones (r :: r2 :: rest2) c0
            = if r.IsTruncated then
                match get_route53_hosted_zones (r2 :: rest2)
                    (some (r.NextDNSName, r.NextHostedZoneId)) with
                | none => none
                | some (reqs, items) => some (c0 :: reqs, r.HostedZones ++ items)
              else some ([c0], r.HostedZones) from rfl,
          hr, hrec]
      simp

/-- The corresponding characterization of the records fetcher; every
request also carries the fixed zone id. -/
lemma records_fetch_spec (zone_id : String) :
    ∀ (resps : List RecordsResponse) (c0 : Option (String × String)),
      (∀ r ∈ resps.dropLast, r.IsTruncated = true) →
      (∀ last, resps.getLast? = some last → last.IsTruncated = false) →
      resps ≠ [] →
      get_route53_zone_records zone_id resps c0 =
        some ((zone_id, c0) :: resps.dropLast.map
                (fun r => (zone_id, some (r.NextRecordName, r.NextRecordType))),
              (resps.map RecordsResponse.ResourceRecordSets).flatten) := by
  intro resps
  induction resps with
  | nil => intro c0 _ _ hne; exact absurd rfl hne
  | cons r rest ih =>
    intro c0 htr hlast hne
    cases rest with
    | nil =>
      have h := hlast r (by simp)
      simp [get_route53_zone_records, h]
    | cons r2 rest2 =>
      have hr : r.IsTruncated = true := htr r (by simp)
      have hrec := ih (some (r.NextRecordName, r.NextRecordType))
        (fun x hx => htr x (by simpa using List.mem_cons_of_mem r hx))
        (fun l hl => hlast l (by simpa using hl))
        (by simp)
      rw [show get_route53_zone_records zone_id (r :: r2 :: rest2) c0
            = if r.IsTruncated then
                match get_route53_zone_records zone_id (r2 :: rest2)
                    (some (r.NextRecordName, r.NextRecordType)) with
                | none => none
                | some (reqs, items) =>
                  some ((zone_id, c0) :: reqs, r.ResourceRecordSets ++ items)
              else some ([(zone_id, c0)], r.ResourceRecordSets) from rfl,
          hr, hrec]
      simp

/-- C2: for every sequence of N responses, truncated on responses
1..N-1 and not on response N, each fetcher issues exactly N requests,
the first carrying the initial cursor and each later one the cursor of
the preceding response, and returns the concatenation of the N pages
in original order; this holds for the zones fetcher and for the
records fetcher of a zone. -/
theorem claim_C2_pagination :
    (∀ (resps : List ZonesResponse) (c0 : Option (String × String)),
      (∀ r ∈ resps.dropLast, r.IsTruncated = true) →
      (∀ last, resps.getLast? = some last → last.IsTruncated = false) →
      resps ≠ [] →
      ∃ reqs items,
        get_route53_hosted_zones resps c0 = some (reqs, items)
        ∧ reqs.length = resps.length
        ∧ reqs = c0 :: resps.dropLast.map
            (fun r => some (r.NextDNSName, r.NextHostedZoneId))
        ∧ items = (resps.map ZonesResponse.HostedZones).flatten)
    ∧ (∀ (zone_id : String) (resps : List RecordsResponse)
        (c0 : Option (String × String)),
      (∀ r ∈ resps.dropLast, r.IsTruncated = true) →
      (∀ last, resps.getLast? = some last → last.IsTruncated = false) →
      resps ≠ [] →
      ∃ reqs items,
        get_route53_zone_records zone_id resps c0 = some (reqs, items)
        ∧ reqs.length = resps.length
        ∧ reqs = (zone_id, c0) :: resps.dropLast.map
            (fun r => (zone_id, some (r.NextRecordName, r.NextRecordType)))
        ∧ items = (resps.map RecordsResponse.ResourceRecordSets).flatten) := by
  constructor
  · intro resps c0 htr hlast hne
    refine ⟨_, _, zones_fetch_spec resps c0 htr hlast hne, ?_, rfl, rfl⟩
    have hpos : 0 < resps.length := List.length_pos.mpr hne
    simp [List.length_dropLast]
    omega
  · intro zone_id resps c0 htr hlast hne
    refine ⟨_, _, records_fetch_spec zone_id resps c0 htr hlast hne, ?_, rfl, rfl⟩
    have hpos : 0 < resps.length := List.length_pos.mpr hne
    simp [List.length_dropLast]
    omega

/-- A concrete three-page zone listing: pages one and two truncated. -/
def zresps3 : List ZonesResponse :=
  [⟨[.dict [("Id", .str "Z1"), ("Name", .str "a.example.com.")]], true,
    "b.example.com.", "Z2"⟩,
   ⟨[.dict [("Id", .str "Z2"), ("Name", .str "b.example.com.")]], true,
    "c.example.com.", "Z3"⟩,
   ⟨[.dict [("Id", .str "Z3"), ("Name", .str "c.example.com.")]], false, "", ""⟩]

/-- A concrete two-page record listing: page one truncated. -/
def rresps2 : List RecordsResponse :=
  [⟨[.dict [("Name", .str "a.example.com."), ("Type", .str "NS")]], true,
    "a.example.com.", "SOA"⟩,
   ⟨[.dict [("Name", .str "a.example.com."), ("Type", .str "SOA")]], false, "", ""⟩]

/-- Witness for C2 on the concrete three-page and two-page servers. -/
theorem claim_C2_witness :
    (∃ reqs items,
      get_route53_hosted_zones zresps3 none = some (reqs, items)
      ∧ reqs.length = zresps3.length
      ∧ reqs = none :: zresps3.dropLast.map
          (fun r => some (r.NextDNSName, r.NextHostedZoneId))
      ∧ items = (zresps3.map ZonesResponse.HostedZones).flatten)
    ∧ (∃ reqs items,
      get_route53_zone_records "Z1" rresps2 none = some (reqs, items)
      ∧ reqs.length = rresps2.length
      ∧ reqs = ("Z1", none) :: rresps2.dropLast.map
          (fun r => ("Z1", some (r.NextRecordName, r.NextRecordType)))
      ∧ items = (rresps2.map RecordsResponse.ResourceRecordSets).flatten) :=
  ⟨claim_C2_pagination.1 zresps3 none
      (by intro r hr
          simp [zresps3] at hr
          rcases hr with h | h <;> subst h <;> rfl)
      (by intro l hl
          simp [zresps3] at hl
          subst hl
          rfl)
      (by simp [zresps3]),
   claim_C2_pagination.2 "Z1" rresps2 none
      (by intro r hr
          simp [rresps2] at hr
          subst hr
          rfl)
      (by intro l hl
          simp [rresps2] at hl
          subst hl
          rfl)
      (by simp [rresps2])⟩

/-- Inversion of one record through record_csv_rows: on success the
rows are exactly one per value, all sharing the non-VALUE columns. -/
lemma record_csv_rows_spec (r : PVal) (rr : List (List PVal))
    (h : record_csv_rows r = .ok rr) :
    ∃ name ty vals,
      py_getitem r "Name" = .ok name
      ∧ py_getitem r "Type" = .ok ty
      ∧ get_record_value r = .ok vals
      ∧ rr.length = vals.length
      ∧ rr = vals.map (fun v =>
          [name, ty, v, try_record "TTL" r, try_record "Region" r,
           try_record "Weight" r, try_record "SetIdentifier" r,
           try_record "Failover" r,
           try_record "EvaluateTargetHealth" (try_record "AliasTarget" r)]) := by
  simp only [record_csv_rows] at h
  cases hname : py_getitem r "Name" with
  | error e => rw [hname] at h; simp at h
  | ok name =>
    rw [hname] at h
    cases hty : py_getitem r "Type" with
    | error e => rw [hty] at h; simp at h
    | ok ty =>
      rw [hty] at h
      cases hval : get_record_value r with
      | error e => rw [hval] at h; simp at h
      | ok vals =>
        rw [hval] at h
        simp only [except_bind_ok, except_pure_eq_ok, Except.ok.injEq] at h
        refine ⟨name, ty, vals, rfl, rfl, rfl, ?_, ?_⟩
        · rw [← h]; simp
        · rw [← h]
          apply List.map_congr_left
          intro v hv
          rfl

/-- mapM over Except succeeds exactly when every element succeeds,
element by element. -/
lemma mapM_ok_forall2 {α β : Type} (f : α → Except PyErr β) :
    ∀ (xs : List α) (ys : List β), xs.mapM f = .ok ys →
      List.Forall₂ (fun x y => f x = .ok y) xs ys := by
  intro xs
  induction xs with
  | nil =>
    intro ys h
    simp only [List.mapM_nil, except_pure_eq_ok, Except.ok.injEq] at h
    subst h
    exact List.Forall₂.nil
  | cons x xs ih =>
    intro ys h
    rw [List.mapM_cons] at h
    cases hx : f x with
    | error e => rw [hx] at h; simp at h
    | ok y =>
      rw [hx] at h
      simp only [except_bind_ok] at h
      cases hxs : xs.mapM f with
      | error e => rw [hxs] at h; simp at h
      | ok ys2 =>
        rw [hxs] at h
        simp only [except_bind_ok, except_pure_eq_ok, Except.ok.injEq] at h
        subst h
        exact List.Forall₂.cons hx (ih ys2 hxs)

/-- C6: the CSV document always starts with the fixed header row, the
header is emitted even for an empty record list, and the data rows are
exactly one per (record, value) pair, the rows of one record sharing
every column except VALUE (index 2). -/
theorem claim_C6_csv_layout :
    (∀ (zone : PVal) (n : String),
      py_getitem zone "Name" = .ok (.str n) →
      write_zone_to_csv zone [] = .ok ("/tmp/" ++ n ++ "csv", [csv_header]))
    ∧ (∀ (zone : PVal) (rs : List PVal) (fn : String) (doc : List (List PVal)),
      write_zone_to_csv zone rs = .ok (fn, doc) →
      doc.head? = some csv_header
      ∧ ∃ rowss, rs.mapM record_csv_rows = .ok rowss
        ∧ doc = csv_header :: rowss.flatten
        ∧ List.Forall₂ (fun r rr => ∃ name ty vals,
            py_getitem r "Name" = .ok name
            ∧ py_getitem r "Type" = .ok ty
            ∧ get_record_value r = .ok vals
            ∧ rr.length = vals.length
            ∧ rr = vals.map (fun v =>
               [name, ty, v, try_record "TTL" r, try_record "Region" r,
                try_record "Weight" r, try_record "SetIdentifier" r,
                try_record "Failover" r,
                try_record "EvaluateTargetHealth" (try_record "AliasTarget" r)]))
            rs rowss) := by
  constructor
  · intro zone n h
    simp only [write_zone_to_csv, h, except_bind_ok, py_str_of]
    rfl
  · intro zone rs fn doc h
    simp only [write_zone_to_csv] at h
    cases hname : py_getitem zone "Name" with
    | error e => rw [hname] at h; simp at h
    | ok nameV =>
      rw [hname] at h
      simp only [except_bind_ok] at h
      cases hstr : py_str_of nameV with
      | error e => rw [hstr] at h; simp at h
      | ok name =>
        rw [hstr] at h
        simp only [except_bind_ok] at h
        cases hm : rs.mapM record_csv_rows with
        | error e => rw [hm] at h; simp at h
        | ok rowss =>
          rw [hm] at h
          simp only [except_bind_ok, except_pure_eq_ok, Except.ok.injEq,
            Prod.mk.injEq] at h
          refine ⟨?_, rowss, rfl, ?_, ?_⟩
          · rw [← h.2]; rfl
          · exact h.2.symm
          · exact (mapM_ok_forall2 record_csv_rows rs rowss hm).imp
              (fun {r rr} hf => record_csv_rows_spec r rr hf)

/-- A concrete zone dict used by witnesses. -/
def zoneW : PVal := .dict [("Id", .str "Z9"), ("Name", .str "example.com.")]

/-- A concrete two-value MX record used by witnesses. -/
def mxW : PVal := .dict
  [("Name", .str "example.com."), ("Type", .str "MX"), ("TTL", .intV 300),
   ("ResourceRecords", .list [.dict [("Value", .str "10 mail1.example.com.")],
                              .dict [("Value", .str "20 mail2.example.com.")]])]

/-- The CSV document produced for the two-value MX record. -/
def mxDocW : List (List PVal) :=
  [csv_header,
   [.str "example.com.", .str "MX", .str "10 mail1.example.com.", .intV 300,
    .str "", .str "", .str "", .str "", .str ""],
   [.str "example.com.", .str "MX", .str "20 mail2.example.com.", .intV 300,
    .str "", .str "", .str "", .str "", .str ""]]

/-- Witness for C6: the empty zone yields a header-only document, and
the two-value MX record yields two data rows differing only in VALUE. -/
theorem claim_C6_witness :
    write_zone_to_csv zoneW [] = .ok ("/tmp/" ++ "example.com." ++ "csv", [csv_header])
    ∧ (mxDocW.head? = some csv_header
      ∧ ∃ rowss, [mxW].mapM record_csv_rows = .ok rowss
        ∧ mxDocW = csv_header :: rowss.flatten
        ∧ List.Forall₂ (fun r rr => ∃ name ty vals,
            py_getitem r "Name" = .ok name
            ∧ py_getitem r "Type" = .ok ty
            ∧ get_record_value r = .ok vals
            ∧ rr.length = vals.length
            ∧ rr = vals.map (fun v =>
               [name, ty, v, try_record "TTL" r, try_record "Region" r,
                try_record "Weight" r, try_record "SetIdentifier" r,
                try_record "Failover" r,
                try_record "EvaluateTargetHealth" (try_record "AliasTarget" r)]))
            [mxW] rowss) :=
  ⟨claim_C6_csv_layout.1 zoneW "example.com." rfl,
   claim_C6_csv_layout.2 zoneW [mxW] ("/tmp/" ++ "example.com." ++ "csv") mxDocW rfl⟩

/-- The zones a run sees: all pages of the zone listing concatenated. -/
def zones_of (env : AwsEnv) : List PVal :=
  (env.zoneResponses.map ZonesResponse.HostedZones).flatten

/-- The configured folder is either absent or a nonempty string (an
empty string would be dropped by filter(None, ...)). -/
def folder_ok : Option String → Bool
  | none => true
  | some p => !p.isEmpty

/-- The storage-key layout stated by the specification:
[prefix/]timestamp/zone-name-without-trailing-dot/zone-name+extension. -/
def expected_key (folder : Option String) (ts n ext : String) : String :=
  (match folder with
   | some p => p ++ "/"
   | none => "") ++ ts ++ "/" ++ n.dropRight 1 ++ "/" ++ n ++ ext

/-- Well-formed pagination for the zone listing: every page but the
last is truncated and the last is not. -/
def zone_pages_ok (resps : List ZonesResponse) : Prop :=
  (∀ r ∈ resps.dropLast, r.IsTruncated = true)
  ∧ (∀ last, resps.getLast? = some last → last.IsTruncated = false)
  ∧ resps ≠ []

/-- Well-formed pagination for a record listing. -/
def record_pages_ok (resps : List RecordsResponse) : Prop :=
  (∀ r ∈ resps.dropLast, r.IsTruncated = true)
  ∧ (∀ last, resps.getLast? = some last → last.IsTruncated = false)
  ∧ resps ≠ []

/-- A zone the orchestrator can fully process: string Name with a
nonempty stem, string Id, well-formed record pages, and records that
all serialize. -/
def zone_ok (env : AwsEnv) (z : PVal) : Prop :=
  ∃ n zid, py_getitem z "Name" = .ok (.str n)
    ∧ n.dropRight 1 ≠ ""
    ∧ py_getitem z "Id" = .ok (.str zid)
    ∧ record_pages_ok (env.recordResponses zid)
    ∧ ∃ rowss, ((env.recordResponses zid).map
        RecordsResponse.ResourceRecordSets).flatten.mapM record_csv_rows
        = Except.ok rowss

/-- Appending a nonempty string on the right keeps a string nonempty. -/
lemma append_ne_empty_right (a b : String) (h : b ≠ "") : a ++ b ≠ "" := by
  intro hq
  apply h
  have hd := congrArg String.data hq
  simp [String.data_append] at hd
  exact String.ext hd.2

/-- A nonempty string has isEmpty false. -/
lemma isEmpty_false_of_ne (s : String) (h : s ≠ "") : s.isEmpty = false := by
  rw [Bool.eq_false_iff]
  intro hq
  exact h ((String.isEmpty_iff s).mp hq)

/-- The object key computed by upload_to_s3 is logged whatever the
outcome of the upload. -/
lemma upload_keys_effect (cfg : Config) (env : AwsEnv) (c bucket k : String)
    (f : Option String) (st : RunState) :
    (upload_to_s3 cfg env c bucket k f st).2.uploadKeys
      = st.uploadKeys ++ [py_filter_join [f, some k]] := by
  simp only [upload_to_s3]
  split
  · split
    · split
      · simp [s3_upload_file]
      · simp
    · split
      · simp
      · simp [s3_upload_file]
  · simp [s3_upload_file]

/-- When head_object cannot fail for the computed key, upload_to_s3
always succeeds (it either skips or writes). -/
lemma upload_ok_eq (cfg : Config) (env : AwsEnv) (c bucket k : String)
    (f : Option String) (st : RunState)
    (hhe : env.headObjectErr (py_filter_join [f, some k]) = none) :
    upload_to_s3 cfg env c bucket k f st
      = (.ok (), (upload_to_s3 cfg env c bucket k f st).2) := by
  have hfst : (upload_to_s3 cfg env c bucket k f st).1 = .ok () := by
    simp only [upload_to_s3, head_object, hhe]
    split
    · cases hl : lookup_str st.objects (py_filter_join [f, some k]) with
      | none => simp [hl, s3_upload_file]
      | some content =>
        simp only [hl]
        split <;> simp [s3_upload_file]
    · simp [s3_upload_file]
  rw [← hfst]

/-- Folder and key shape for a well-formed zone name: gen_folder keeps
exactly the nonempty parts, and appending the artifact file name gives
the specified storage layout. -/
lemma zone_key_form (f : Option String) (ts n ext : String) (z : PVal)
    (hts : ts ≠ "") (hf : folder_ok f = true) (hstem : n.dropRight 1 ≠ "")
    (hn : py_getitem z "Name" = .ok (.str n)) :
    gen_folder f ts z
      = .ok ((match f with | some p => p ++ "/" | none => "")
              ++ ts ++ "/" ++ n.dropRight 1)
    ∧ py_filter_join
        [some ((match f with | some p => p ++ "/" | none => "")
                ++ ts ++ "/" ++ n.dropRight 1),
         some (n ++ ext)]
      = expected_key f ts n ext := by
  have hz : ∃ es, z = PVal.dict es ∧ py_lookup es "Name" = some (.str n) := by
    cases z with
    | dict es =>
      simp only [py_getitem] at hn
      cases hl : py_lookup es "Name" with
      | none => rw [hl] at hn; exact absurd hn (by simp)
      | some v =>
        rw [hl] at hn
        simp only [Except.ok.injEq] at hn
        exact ⟨es, rfl, by rw [hl, hn]⟩
    | noneV => simp [py_getitem] at hn
    | boolV b => simp [py_getitem] at hn
    | intV i => simp [py_getitem] at hn
    | str s => simp [py_getitem] at hn
    | list xs => simp [py_getitem] at hn
  obtain ⟨es, rfl, hlook⟩ := hz
  have hts2 : ts.isEmpty = false := isEmpty_false_of_ne ts hts
  have hstem2 : (n.dropRight 1).isEmpty = false := isEmpty_false_of_ne _ hstem
  have hne : n ≠ "" := by
    intro hq
    apply hstem
    rw [hq]
    rfl
  have hnext : (n ++ ext) ≠ "" := by
    intro hq
    apply hne
    have hd := congrArg String.data hq
    simp [String.data_append] at hd
    exact String.ext hd.1
  constructor
  · cases f with
    | none =>
      simp [gen_folder, py_dict_get, hlook, py_slice_drop_last, py_join_slash,
        py_truthy, opt_str_pv, py_str_of, hts2, hstem2, String.intercalate,
        String.intercalate.go, String.append_assoc, List.mapM.loop]
    | some p =>
      have hp : p.isEmpty = false := by simpa [folder_ok] using hf
      simp [gen_folder, py_dict_get, hlook, py_slice_drop_last, py_join_slash,
        py_truthy, opt_str_pv, py_str_of, hts2, hstem2, hp, String.intercalate,
        String.intercalate.go, String.append_assoc, List.mapM.loop]
  · have hnext2 := isEmpty_false_of_ne _ hnext
    have h1 : ("/" ++ n.dropRight 1) ≠ "" := append_ne_empty_right _ _ hstem
    have h2 : (ts ++ ("/" ++ n.dropRight 1)).isEmpty = false :=
      isEmpty_false_of_ne _ (append_ne_empty_right _ _ h1)
    have h3 : ∀ p : String,
        (p ++ ("/" ++ (ts ++ ("/" ++ n.dropRight 1)))).isEmpty = false :=
      fun p => isEmpty_false_of_ne _
        (append_ne_empty_right p _
          (append_ne_empty_right "/" _ (append_ne_empty_right ts _ h1)))
    cases f with
    | none =>
      simp [py_filter_join, expected_key, h2, hnext2, String.intercalate,
        String.intercalate.go, String.append_assoc]
    | some p =>
      simp [py_filter_join, expected_key, h3 p, hnext2, String.intercalate,
        String.intercalate.go, String.append_assoc]

/-- Forward evaluation of one zone body: under the well-formedness
facts of zone_ok, process_zone succeeds and appends exactly the csv
key followed by the json key of the specified layout. -/
lemma process_zone_ok (cfg : Config) (env : AwsEnv) (ts : String) (z : PVal)
    (st : RunState) (n zid : String)
    (hts : ts ≠ "") (hf : folder_ok cfg.s3_bucket_folder = true)
    (hhe : ∀ key, env.headObjectErr key = none)
    (hn : py_getitem z "Name" = .ok (.str n))
    (hstem : n.dropRight 1 ≠ "")
    (hid : py_getitem z "Id" = .ok (.str zid))
    (hpages : record_pages_ok (env.recordResponses zid))
    (rowss : List (List (List PVal)))
    (hrowss : ((env.recordResponses zid).map
        RecordsResponse.ResourceRecordSets).flatten.mapM record_csv_rows
        = Except.ok rowss) :
    ∃ st2, process_zone cfg env ts z st = (.ok (), st2)
      ∧ st2.uploadKeys = st.uploadKeys
          ++ [expected_key cfg.s3_bucket_folder ts n "csv",
              expected_key cfg.s3_bucket_folder ts n "json"] := by
  obtain ⟨hgf, hkeyc⟩ := zone_key_form cfg.s3_bucket_folder ts n "csv" z hts hf hstem hn
  have hkeyj := (zone_key_form cfg.s3_bucket_folder ts n "json" z hts hf hstem hn).2
  obtain ⟨htr1, htr2, htr3⟩ := hpages
  have hrec := records_fetch_spec zid (env.recordResponses zid) none htr1 htr2 htr3
  have hcsv : write_zone_to_csv z
      ((env.recordResponses zid).map RecordsResponse.ResourceRecordSets).flatten
      = .ok ("/tmp/" ++ n ++ "csv", csv_header :: rowss.flatten) := by
    simp only [write_zone_to_csv, hn, except_bind_ok, py_str_of, hrowss,
      except_pure_eq_ok]
  have hjson : write_zone_to_json env z
      ((env.recordResponses zid).map RecordsResponse.ResourceRecordSets).flatten
      = .ok ("/tmp/" ++ n ++ "json",
             env.jsonRender ((env.recordResponses zid).map
               RecordsResponse.ResourceRecordSets).flatten) := by
    simp only [write_zone_to_json, hn, except_bind_ok, py_str_of,
      except_pure_eq_ok]
  simp only [process_zone, hgf, hid, hrec, hcsv, hjson, hn, py_str_of]
  rw [upload_ok_eq cfg env _ _ _ _ _ (hhe _)]
  simp only []
  rw [upload_ok_eq cfg env _ _ _ _ _ (hhe _)]
  simp only []
  refine ⟨_, rfl, ?_⟩
  rw [upload_keys_effect]
  simp only []
  rw [upload_keys_effect]
  rw [hkeyc, hkeyj]
  simp [List.append_assoc]

/-- Forward evaluation of the zone loop: every zone processed in
order, appending its csv and json keys. -/
lemma process_zones_ok (cfg : Config) (env : AwsEnv) (ts : String)
    (hts : ts ≠ "") (hf : folder_ok cfg.s3_bucket_folder = true)
    (hhe : ∀ key, env.headObjectErr key = none) :
    ∀ (zs : List PVal) (st : RunState), (∀ z ∈ zs, zone_ok env z) →
      ∃ st2, process_zones cfg env ts zs st = (.ok true, st2)
        ∧ st2.uploadKeys = st.uploadKeys ++ zs.flatMap (fun z =>
            match py_getitem z "Name" with
            | .ok (.str n) => [expected_key cfg.s3_bucket_folder ts n "csv",
                               expected_key cfg.s3_bucket_folder ts n "json"]
            | _ => []) := by
  intro zs
  induction zs with
  | nil => intro st _; exact ⟨st, rfl, by simp⟩
  | cons z rest ih =>
    intro st hall
    obtain ⟨n, zid, hn, hstem, hid, hpages, rowss, hrowss⟩ := hall z (by simp)
    obtain ⟨stA, hpz, hkeys⟩ := process_zone_ok cfg env ts z st n zid
      hts hf hhe hn hstem hid hpages rowss hrowss
    obtain ⟨st2, hrest, hkeys2⟩ := ih stA (fun x hx => hall x (by simp [hx]))
    refine ⟨st2, ?_, ?_⟩
    · simp only [process_zones, hpz]
      exact hrest
    · rw [hkeys2, hkeys, List.flatMap_cons, hn]
      simp [List.append_assoc]

/-- C7: under a well-formed environment (existing bucket in the
configured versioning mode, fault-free object probes, well-formed
pagination, processable zones, nonempty timestamp and folder), the run
succeeds and its object keys are exactly, zone by zone in listing
order, the csv key then the json key of the layout
[prefix/]timestamp/zone-name-without-trailing-dot/zone-name+extension,
every key built from the single timestamp read once at run start. -/
theorem claim_C7_storage_layout (cfg : Config) (env : AwsEnv)
    (hts : env.time_stamp ≠ "")
    (hf : folder_ok cfg.s3_bucket_folder = true)
    (hbucket : env.headBucket = none)
    (hvers : (env.bucketVersioningStatus == some "Enabled") = cfg.s3_bucket_versioned)
    (hhe : ∀ key, env.headObjectErr key = none)
    (hzp : zone_pages_ok env.zoneResponses)
    (hzones : ∀ z ∈ zones_of env, zone_ok env z) :
    ∃ st, lambda_handler cfg env = (.ok true, st)
      ∧ st.uploadKeys = (zones_of env).flatMap (fun z =>
          match py_getitem z "Name" with
          | .ok (.str n) =>
            [expected_key cfg.s3_bucket_folder env.time_stamp n "csv",
             expected_key cfg.s3_bucket_folder env.time_stamp n "json"]
          | _ => []) := by
  obtain ⟨ht1, ht2, ht3⟩ := hzp
  have hzfetch := zones_fetch_spec env.zoneResponses none ht1 ht2 ht3
  have hcreate : create_s3_bucket cfg env cfg.s3_bucket_name
      cfg.s3_bucket_region RunState.init = (.ok true, RunState.init) := by
    simp [create_s3_bucket, hbucket, hvers]
  have htsb : env.time_stamp.isEmpty = false := isEmpty_false_of_ne _ hts
  have hbanner : gen_folder cfg.s3_bucket_folder env.time_stamp (.dict [])
      = .ok (match cfg.s3_bucket_folder with
             | none => env.time_stamp
             | some p => p ++ "/" ++ env.time_stamp) := by
    cases hfold : cfg.s3_bucket_folder with
    | none =>
      simp [gen_folder, py_dict_get, py_lookup, py_slice_drop_last,
        py_join_slash, py_truthy, opt_str_pv, py_str_of, htsb, List.mapM.loop,
        String.intercalate, String.intercalate.go]
    | some p =>
      have hp : p.isEmpty = false := by
        rw [hfold] at hf
        simpa [folder_ok] using hf
      simp [gen_folder, py_dict_get, py_lookup, py_slice_drop_last,
        py_join_slash, py_truthy, opt_str_pv, py_str_of, htsb, hp,
        List.mapM.loop, String.intercalate, String.intercalate.go]
  obtain ⟨stF, hloop, hkeys⟩ := process_zones_ok cfg env env.time_stamp hts hf hhe
    (zones_of env)
    { RunState.init with zoneListCalls := RunState.init.zoneListCalls
        + (none :: env.zoneResponses.dropLast.map
            (fun r => some (r.NextDNSName, r.NextHostedZoneId))).length }
    hzones
  refine ⟨stF, ?_, ?_⟩
  · simp only [lambda_handler, hcreate, Bool.not_true, Bool.false_eq_true,
      if_false, hzfetch, hbanner]
    exact hloop
  · rw [hkeys]
    rfl

/-- One-page zone listing for the C7 witness. -/
def zresW : List ZonesResponse := [⟨[zoneW], false, "", ""⟩]

/-- One-page record listing for the C7 witness. -/
def rresW : List RecordsResponse := [⟨[mxW], false, "", ""⟩]

/-- A fully healthy witness environment with one zone and one record. -/
def envW7 : AwsEnv :=
  { headBucket := none
  , bucketVersioningStatus := some "Enabled"
  , createLocation := none
  , zoneResponses := zresW
  , recordResponses := fun _ => rresW
  , headObjectErr := fun _ => none
  , md5_hex := fun s => s
  , csvRender := fun _ => "csvbytes"
  , jsonRender := fun _ => "jsonbytes"
  , time_stamp := "2026-01-02T03:04:05Z" }

/-- Witness for C7: the concrete one-zone run succeeds and produces
exactly the csv and json keys of the specified layout. -/
theorem claim_C7_witness :
    ∃ st, lambda_handler cfgV envW7 = (.ok true, st)
      ∧ st.uploadKeys = (zones_of envW7).flatMap (fun z =>
          match py_getitem z "Name" with
          | .ok (.str n) =>
            [expected_key cfgV.s3_bucket_folder envW7.time_stamp n "csv",
             expected_key cfgV.s3_bucket_folder envW7.time_stamp n "json"]
          | _ => []) :=
  claim_C7_storage_layout cfgV envW7 (by decide) rfl rfl rfl (fun _ => rfl)
    ⟨by simp [envW7, zresW],
     by intro l hl
        simp [envW7, zresW] at hl
        subst hl
        rfl,
     by simp [envW7, zresW]⟩
    (by intro z hz
        simp [zones_of, envW7, zresW] at hz
        subst hz
        exact ⟨"example.com.", "Z9", rfl, by decide, rfl,
          ⟨by simp [envW7, rresW],
           by intro l hl
              simp [envW7, rresW] at hl
              subst hl
              rfl,
           by simp [envW7, rresW]⟩,
          _, rfl⟩)
